import Mathlib

/-!
Shallow embedding of `bin/run_trim_neck.py` (TrimNeck).

External processes are modelled by an environment `Env` mapping a command
line and a file system to a result (exit status, captured stdout/stderr)
and an updated file system.  Console output, stack traces, subprocess
launches, directory creation and file copies are recorded as `Event`s, in
the order the script performs them.  An uncaught exception in `main`
terminates the Python process with exit status 1, and `sys.exit(1)` with
1, so both are modelled as exit code 1; a completed `main` is exit code 0.
-/

set_option autoImplicit false

namespace TrimNeck

/-- A file system: files as an association list from path to byte
contents (most recent write first), plus the list of existing
directories. -/
structure FileSys where
  files : List (String × String)
  dirs : List String
deriving Repr, DecidableEq

def FileSys.getFile (fs : FileSys) (p : String) : Option String :=
  (fs.files.find? (fun kv => kv.1 == p)).map (fun kv => kv.2)

def FileSys.setFile (fs : FileSys) (p c : String) : FileSys :=
  { fs with files := (p, c) :: fs.files }

def FileSys.dirExists (fs : FileSys) (d : String) : Bool :=
  fs.dirs.contains d

/-- `os.path.exists`: true when the path is a file or a directory. -/
def FileSys.pathExists (fs : FileSys) (p : String) : Bool :=
  (fs.getFile p).isSome || fs.dirExists p

def FileSys.mkdir (fs : FileSys) (d : String) : FileSys :=
  { fs with dirs := d :: fs.dirs }

/-- `os.makedirs` (creation of intermediate parent directories is elided:
no claim inspects the parents, only the requested directory itself). -/
def FileSys.makedirs (fs : FileSys) (d : String) : FileSys :=
  { fs with dirs := d :: fs.dirs }

/-- Split a character list into everything up to and including the last
slash, and the remainder, following `posixpath`. -/
def splitLastSlash : List Char → List Char × List Char
  | [] => ([], [])
  | c :: rest =>
    if rest.contains '/' then
      (c :: (splitLastSlash rest).1, (splitLastSlash rest).2)
    else if c == '/' then ([c], rest)
    else ([], c :: rest)

/-- `os.path.dirname` for POSIX paths: everything up to the last slash,
with trailing slashes stripped unless the head is all slashes. -/
def dirname (p : String) : String :=
  let head := (splitLastSlash p.data).1
  if head.any (fun c => c != '/') then
    String.mk ((head.reverse.dropWhile (fun c => c == '/')).reverse)
  else
    String.mk head

/-- `os.path.join` for POSIX paths, two components: `b` when `b` is
absolute (starts with a slash), plain concatenation when `a` is empty or
ends with a slash, otherwise concatenation with a separating slash. -/
def joinPath (a b : String) : String :=
  if b.data.headD ' ' == '/' then b
  else if a == "" || a.data.getLastD ' ' == '/' then a ++ b
  else a ++ "/" ++ b

/-- Result of one `subprocess.run` call. -/
structure CmdResult where
  returncode : Int
  stdout : String
  stderr : String
deriving Repr, DecidableEq

/-- The outside world: how each external command behaves, as a function
of the command line and the current file system. -/
structure Env where
  run : List String → FileSys → CmdResult × FileSys

/-- Observable actions of the script. -/
inductive Event where
  | print (s : String)
  | stackTrace
  | runCmd (cmd : List String)
  | mkTempDir (d : String)
  | makedirs (d : String)
  | copy (src dst : String)
deriving Repr, DecidableEq

/-- The `PipelineError` exception, carrying its message string. -/
structure PipelineError where
  msg : String
deriving Repr, DecidableEq

/-- The dictionary returned by `run_command`. -/
structure CmdRecord where
  cmd_str : String
  stderr : String
  stdout : String
deriving Repr, DecidableEq

/-- Joint outcome of a `run_command` call: the returned record or the
raised exception, the file system afterwards, and the emitted events. -/
structure CmdStep where
  res : Except PipelineError CmdRecord
  fs : FileSys
  events : List Event
deriving Repr

/-- `' '.join(cmd)`. -/
def joinCmd (cmd : List String) : String := String.intercalate " " cmd

/-- The module-level verbosity flag (source line 12).  `main` declares it
global but never assigns it, and no command-line option is wired to it. -/
def __verbose__ : Bool := false

/-- `run_command(cmd)` from the source.  Echoes the command and its
streams when verbose; on a non-zero exit status prints the command line
and a stack trace, and — exactly as in the source, where the `raise`
statement is indented inside the `if not __verbose__` block — re-prints
the streams and raises `PipelineError` only when not verbose. -/
def run_command (verbose : Bool) (env : Env) (cmd : List String) (fs : FileSys) : CmdStep :=
  let evHead := if verbose = true then
      [Event.print ("--- Running " ++ cmd.headD "" ++ " ---"), Event.print (joinCmd cmd)]
    else []
  let result := (env.run cmd fs).1
  let fs1 := (env.run cmd fs).2
  let evEcho := if verbose = true then
      [Event.print "--- command stdout ---", Event.print result.stdout,
       Event.print "--- command stderr ---", Event.print result.stderr,
       Event.print ("--- end " ++ cmd.headD "" ++ " ---")]
    else []
  let evRun := evHead ++ [Event.runCmd cmd] ++ evEcho
  if result.returncode ≠ 0 then
    let evErr := evRun ++ [Event.print ("Error running command: " ++ joinCmd cmd), Event.stackTrace]
    if verbose = false then
      { res := Except.error { msg := "Error running command: " ++ joinCmd cmd },
        fs := fs1,
        events := evErr ++ [Event.print ("command stdout:\n" ++ result.stdout),
                            Event.print ("command stderr:\n" ++ result.stderr)] }
    else
      { res := Except.ok { cmd_str := joinCmd cmd, stderr := result.stderr, stdout := result.stdout },
        fs := fs1, events := evErr }
  else
    { res := Except.ok { cmd_str := joinCmd cmd, stderr := result.stderr, stdout := result.stdout },
      fs := fs1, events := evRun }

/-- `reoriented_image` local of `trim_neck`. -/
def reoriented_image (working_dir : String) : String :=
  joinPath working_dir "input_reoriented_LPI.nii.gz"

/-- `tmp_image_trim` local of `trim_neck`. -/
def tmp_image_trim (working_dir : String) : String :=
  joinPath working_dir "T1wNeckTrim.nii.gz"

/-- The f-string `f"{pad_mm}x{pad_mm}x{pad_mm}mm"`. -/
def padArg (pad_mm : Nat) : String :=
  toString pad_mm ++ "x" ++ toString pad_mm ++ "x" ++ toString pad_mm ++ "mm"

/-- First pipeline command: conform the input to LPI orientation. -/
def reorientCmd (input_image working_dir : String) : List String :=
  ["c3d", input_image, "-swapdim", "LPI", "-o", reoriented_image working_dir]

/-- Second pipeline command: external neck trimming. -/
def trimCmd (working_dir : String) : List String :=
  ["trim_neck.sh", "-c", "20", "-w", working_dir,
   reoriented_image working_dir, tmp_image_trim working_dir]

/-- Third pipeline command: pad the trimmed image in place. -/
def padCmd (working_dir : String) (pad_mm : Nat) : List String :=
  ["c3d", tmp_image_trim working_dir, "-pad", padArg pad_mm, padArg pad_mm, "0",
   "-o", tmp_image_trim working_dir]

/-- The three pipeline commands in execution order. -/
def pipelineCmds (input_image working_dir : String) (pad_mm : Nat) : List (List String) :=
  [reorientCmd input_image working_dir, trimCmd working_dir, padCmd working_dir pad_mm]

/-- Outcome of a `trim_neck` call: the returned path or the propagated
`PipelineError`, the file system afterwards, and the emitted events. -/
structure TrimRun where
  res : Except PipelineError String
  fs : FileSys
  events : List Event
deriving Repr

/-- `trim_neck(input_image, working_dir, pad_mm=10)` from the source: the
reorient, trim and pad commands in strict order, each through
`run_command` (which reads the global verbosity flag); an exception from
any step propagates, skipping the rest. -/
def trim_neck (env : Env) (input_image working_dir : String) (fs : FileSys)
    (pad_mm : Nat := 10) : TrimRun :=
  let s1 := run_command __verbose__ env (reorientCmd input_image working_dir) fs
  match s1.res with
  | Except.error e => { res := Except.error e, fs := s1.fs, events := s1.events }
  | Except.ok _ =>
    let s2 := run_command __verbose__ env (trimCmd working_dir) s1.fs
    match s2.res with
    | Except.error e => { res := Except.error e, fs := s2.fs, events := s1.events ++ s2.events }
    | Except.ok _ =>
      let s3 := run_command __verbose__ env (padCmd working_dir pad_mm) s2.fs
      match s3.res with
      | Except.error e =>
        { res := Except.error e, fs := s3.fs, events := s1.events ++ s2.events ++ s3.events }
      | Except.ok _ =>
        { res := Except.ok (tmp_image_trim working_dir), fs := s3.fs,
          events := s1.events ++ s2.events ++ s3.events }

/-- The `c3d` availability probe in `main`. -/
def probeC3d (env : Env) (fs : FileSys) : CmdStep :=
  run_command __verbose__ env ["c3d", "-h"] fs

/-- The `trim_neck.sh` availability probe in `main`. -/
def probeTrimNeck (env : Env) (fs : FileSys) : CmdStep :=
  run_command __verbose__ env ["trim_neck.sh", "-h"] fs

/-- Outcome of a `main` run: the process exit code, the final file
system, and the emitted events. -/
structure MainRun where
  exitCode : Nat
  fs : FileSys
  events : List Event
deriving Repr

/-- `main()` from the source, parameterised by the parsed `--input` and
`--output` values, the name the temporary-directory constructor returns,
and the initial file system.  Probes both tools (exiting 1 on a caught
`PipelineError`), creates the temporary directory, checks the input
exists (exiting 1 otherwise), creates the output directory when its name
is non-empty and it does not exist, runs the pipeline (an uncaught
`PipelineError`, like any uncaught exception, terminates the process
with exit status 1), and copies the result to the output path
(`shutil.copyfile`; a missing source file is an uncaught error). -/
def main (env : Env) (input output tmpdir : String) (fs0 : FileSys) : MainRun :=
  let s1 := probeC3d env fs0
  match s1.res with
  | Except.error _ =>
    { exitCode := 1, fs := s1.fs,
      events := s1.events ++ [Event.print "Could not run c3d, check PATH"] }
  | Except.ok _ =>
    let s2 := probeTrimNeck env s1.fs
    match s2.res with
    | Except.error _ =>
      { exitCode := 1, fs := s2.fs,
        events := s1.events ++ s2.events ++ [Event.print "Could not run trim_neck.sh, check PATH"] }
    | Except.ok _ =>
      let fs3 := s2.fs.mkdir tmpdir
      let evs := s1.events ++ s2.events ++ [Event.mkTempDir tmpdir]
      if fs3.pathExists input = true then
        let output_dir := dirname output
        let fs4 := if output_dir.length ≠ 0 ∧ fs3.pathExists output_dir = false
          then fs3.makedirs output_dir else fs3
        let evs2 := evs ++ (if output_dir.length ≠ 0 ∧ fs3.pathExists output_dir = false
          then [Event.makedirs output_dir] else [])
        let t := trim_neck env input tmpdir fs4 10
        match t.res with
        | Except.error _ => { exitCode := 1, fs := t.fs, events := evs2 ++ t.events }
        | Except.ok trimmed =>
          match t.fs.getFile trimmed with
          | none => { exitCode := 1, fs := t.fs, events := evs2 ++ t.events }
          | some c =>
            { exitCode := 0, fs := t.fs.setFile output c,
              events := evs2 ++ t.events ++ [Event.copy trimmed output] }
      else
        { exitCode := 1, fs := fs3,
          events := evs ++ [Event.print ("Input image " ++ input ++ " does not exist")] }

/-- The file system at the point of the input-existence check: after both
probes and the temporary-directory creation. -/
def fsAfterChecks (env : Env) (tmpdir : String) (fs0 : FileSys) : FileSys :=
  ((probeTrimNeck env (probeC3d env fs0).fs).fs).mkdir tmpdir

/-- The file system handed to the pipeline: after the probes, the
temporary directory, and the conditional output-directory creation. -/
def fsPrePipeline (env : Env) (output tmpdir : String) (fs0 : FileSys) : FileSys :=
  let fs3 := fsAfterChecks env tmpdir fs0
  let output_dir := dirname output
  if output_dir.length ≠ 0 ∧ fs3.pathExists output_dir = false
    then fs3.makedirs output_dir else fs3

/-- File system after the reorient command has run on `fs`. -/
def fs_afterReorient (env : Env) (input_image working_dir : String) (fs : FileSys) : FileSys :=
  (env.run (reorientCmd input_image working_dir) fs).2

/-- File system after the trim command has run. -/
def fs_afterTrim (env : Env) (input_image working_dir : String) (fs : FileSys) : FileSys :=
  (env.run (trimCmd working_dir) (fs_afterReorient env input_image working_dir fs)).2

/-- File system after the pad command has run. -/
def fs_afterPad (env : Env) (input_image working_dir : String) (fs : FileSys)
    (pad_mm : Nat) : FileSys :=
  (env.run (padCmd working_dir pad_mm) (fs_afterTrim env input_image working_dir fs)).2

/-- The subprocess command lines among a list of events, in order. -/
def cmdsOf (l : List Event) : List (List String) :=
  l.filterMap (fun e => match e with | Event.runCmd c => some c | _ => none)

/-- Whether an `Except` outcome is the raised-exception case. -/
def isErr {ε α : Type} : Except ε α → Bool
  | Except.error _ => true
  | Except.ok _ => false

/-- Events a `run_command` call can emit (console output and the
subprocess launch itself, never a directory creation or a file copy). -/
def consoleOrRun : Event → Bool
  | Event.print _ => true
  | Event.stackTrace => true
  | Event.runCmd _ => true
  | _ => false

/- Concrete worlds used by the witnesses. -/

def fsEmpty : FileSys := { files := [], dirs := [] }

def fsWithInput : FileSys := { files := [("in.nii.gz", "RAW")], dirs := [] }

/-- Every command succeeds and (as the real tools do on success) writes
the pipeline's working file. -/
def envAllOk : Env :=
  { run := fun _ fs =>
      ({ returncode := 0, stdout := "", stderr := "" },
       fs.setFile (tmp_image_trim "/tmp/work") "IMG") }

/-- Every command fails with exit status 1. -/
def envAllFail : Env :=
  { run := fun _ fs => ({ returncode := 1, stdout := "so", stderr := "se" }, fs) }

/-- Probes succeed, but the neck-trim pipeline step itself fails. -/
def envTrimFails : Env :=
  { run := fun cmd fs =>
      if cmd.headD "" == "trim_neck.sh" && cmd.getD 1 "" != "-h" then
        ({ returncode := 1, stdout := "", stderr := "" }, fs)
      else ({ returncode := 0, stdout := "", stderr := "" }, fs) }

/-- Every command fails with exit status 1, stdout `"out"`, stderr `"err"`. -/
def envRC1 : Env :=
  { run := fun _ fs => ({ returncode := 1, stdout := "out", stderr := "err" }, fs) }

/-- What `main` does once both probes have succeeded and the input file
exists: the phase from the output-directory handling onwards.  `main`
agrees with it on such runs (`main_reaches_pipeline`). -/
def mainPipelinePhase (env : Env) (input output tmpdir : String) (fs0 : FileSys) : MainRun :=
  let fs3 := fsAfterChecks env tmpdir fs0
  let output_dir := dirname output
  let evs := [Event.runCmd ["c3d", "-h"], Event.runCmd ["trim_neck.sh", "-h"],
      Event.mkTempDir tmpdir] ++
    (if output_dir.length ≠ 0 ∧ fs3.pathExists output_dir = false
      then [Event.makedirs output_dir] else [])
  let t := trim_neck env input tmpdir (fsPrePipeline env output tmpdir fs0) 10
  match t.res with
  | Except.error _ => { exitCode := 1, fs := t.fs, events := evs ++ t.events }
  | Except.ok trimmed =>
    match t.fs.getFile trimmed with
    | none => { exitCode := 1, fs := t.fs, events := evs ++ t.events }
    | some c =>
      { exitCode := 0, fs := t.fs.setFile output c,
        events := evs ++ t.events ++ [Event.copy trimmed output] }

/-! Helper lemmas about `run_command`. -/

/-- With the (never reassigned) global flag, a command exiting 0 yields
the result record, updates the file system, and emits only the
subprocess launch. -/
theorem run_command_rc_eq (env : Env) (cmd : List String) (fs : FileSys)
    (h : (env.run cmd fs).1.returncode = 0) :
    run_command __verbose__ env cmd fs =
      { res := Except.ok { cmd_str := joinCmd cmd, stderr := (env.run cmd fs).1.stderr,
                           stdout := (env.run cmd fs).1.stdout },
        fs := (env.run cmd fs).2, events := [Event.runCmd cmd] } := by
  simp [run_command, __verbose__, h]

/-- With the global flag, a command exiting non-zero prints the command
line, a stack trace and both streams, and raises `PipelineError`. -/
theorem run_command_rc_ne (env : Env) (cmd : List String) (fs : FileSys)
    (h : (env.run cmd fs).1.returncode ≠ 0) :
    run_command __verbose__ env cmd fs =
      { res := Except.error { msg := "Error running command: " ++ joinCmd cmd },
        fs := (env.run cmd fs).2,
        events := [Event.runCmd cmd,
                   Event.print ("Error running command: " ++ joinCmd cmd), Event.stackTrace,
                   Event.print ("command stdout:\n" ++ (env.run cmd fs).1.stdout),
                   Event.print ("command stderr:\n" ++ (env.run cmd fs).1.stderr)] } := by
  simp [run_command, __verbose__, h]

/-- Every event a `run_command` call emits is console output, a stack
trace, or its own subprocess launch. -/
theorem run_command_events_console (verbose : Bool) (env : Env) (cmd : List String)
    (fs : FileSys) (e : Event) (he : e ∈ (run_command verbose env cmd fs).events) :
    consoleOrRun e = true := by
  cases e <;> try rfl
  all_goals
    cases verbose <;> by_cases hr : (env.run cmd fs).1.returncode = 0 <;>
      simp [run_command, hr] at he

/-- The only subprocess a `run_command` call launches is its own. -/
theorem cmdsOf_run_command (verbose : Bool) (env : Env) (cmd : List String) (fs : FileSys) :
    cmdsOf (run_command verbose env cmd fs).events = [cmd] := by
  cases verbose <;> by_cases hr : (env.run cmd fs).1.returncode = 0 <;>
    simp [run_command, hr, cmdsOf]

/-- A copy just performed is readable back. -/
theorem getFile_setFile (fs : FileSys) (p c : String) :
    (fs.setFile p c).getFile p = some c := by
  simp [FileSys.setFile, FileSys.getFile, List.find?]

/-- Every event a `trim_neck` call emits is console output, a stack
trace, or a subprocess launch. -/
theorem trim_neck_events_console (env : Env) (input_image working_dir : String)
    (fs : FileSys) (pad_mm : Nat) (e : Event)
    (he : e ∈ (trim_neck env input_image working_dir fs pad_mm).events) :
    consoleOrRun e = true := by
  unfold trim_neck at he
  rcases h1 : (run_command __verbose__ env (reorientCmd input_image working_dir) fs).res with e1 | r1 <;>
    simp only [h1] at he
  · exact run_command_events_console _ _ _ _ _ he
  · rcases h2 : (run_command __verbose__ env (trimCmd working_dir)
        (run_command __verbose__ env (reorientCmd input_image working_dir) fs).fs).res with e2 | r2 <;>
      simp only [h2] at he
    · rcases List.mem_append.mp he with h | h
      · exact run_command_events_console _ _ _ _ _ h
      · exact run_command_events_console _ _ _ _ _ h
    · rcases h3 : (run_command __verbose__ env (padCmd working_dir pad_mm)
          (run_command __verbose__ env (trimCmd working_dir)
            (run_command __verbose__ env (reorientCmd input_image working_dir) fs).fs).fs).res with e3 | r3 <;>
        simp only [h3] at he <;>
        rcases List.mem_append.mp he with h | h
      · rcases List.mem_append.mp h with h' | h'
        · exact run_command_events_console _ _ _ _ _ h'
        · exact run_command_events_console _ _ _ _ _ h'
      · exact run_command_events_console _ _ _ _ _ h
      · rcases List.mem_append.mp h with h' | h'
        · exact run_command_events_console _ _ _ _ _ h'
        · exact run_command_events_console _ _ _ _ _ h'
      · exact run_command_events_console _ _ _ _ _ h

/-- `trim_neck` when all three external commands exit 0: the trimmed-image
path is returned and exactly the three pipeline commands run, in order. -/
theorem trim_neck_all_ok (env : Env) (input_image working_dir : String) (fs : FileSys)
    (pad_mm : Nat)
    (h1 : (env.run (reorientCmd input_image working_dir) fs).1.returncode = 0)
    (h2 : (env.run (trimCmd working_dir)
            (fs_afterReorient env input_image working_dir fs)).1.returncode = 0)
    (h3 : (env.run (padCmd working_dir pad_mm)
            (fs_afterTrim env input_image working_dir fs)).1.returncode = 0) :
    trim_neck env input_image working_dir fs pad_mm =
      { res := Except.ok (tmp_image_trim working_dir),
        fs := fs_afterPad env input_image working_dir fs pad_mm,
        events := [Event.runCmd (reorientCmd input_image working_dir),
                   Event.runCmd (trimCmd working_dir),
                   Event.runCmd (padCmd working_dir pad_mm)] } := by
  simp only [fs_afterReorient] at h2
  simp only [fs_afterTrim, fs_afterReorient] at h3
  simp [trim_neck, run_command_rc_eq _ _ _ h1, run_command_rc_eq _ _ _ h2,
        run_command_rc_eq _ _ _ h3, fs_afterPad, fs_afterTrim, fs_afterReorient]

/-- `trim_neck` when the reorient command fails: only it runs, and its
`PipelineError` propagates. -/
theorem trim_neck_fail1 (env : Env) (input_image working_dir : String) (fs : FileSys)
    (pad_mm : Nat)
    (h1 : (env.run (reorientCmd input_image working_dir) fs).1.returncode ≠ 0) :
    trim_neck env input_image working_dir fs pad_mm =
      { res := Except.error
          { msg := "Error running command: " ++ joinCmd (reorientCmd input_image working_dir) },
        fs := fs_afterReorient env input_image working_dir fs,
        events := [Event.runCmd (reorientCmd input_image working_dir),
          Event.print ("Error running command: " ++ joinCmd (reorientCmd input_image working_dir)),
          Event.stackTrace,
          Event.print ("command stdout:\n" ++ (env.run (reorientCmd input_image working_dir) fs).1.stdout),
          Event.print ("command stderr:\n" ++ (env.run (reorientCmd input_image working_dir) fs).1.stderr)] } := by
  simp [trim_neck, run_command_rc_ne _ _ _ h1, fs_afterReorient]

/-- `trim_neck` when the reorient command succeeds and the neck-trim
command fails: only those two run, and the `PipelineError` propagates. -/
theorem trim_neck_fail2 (env : Env) (input_image working_dir : String) (fs : FileSys)
    (pad_mm : Nat)
    (h1 : (env.run (reorientCmd input_image working_dir) fs).1.returncode = 0)
    (h2 : (env.run (trimCmd working_dir)
            (fs_afterReorient env input_image working_dir fs)).1.returncode ≠ 0) :
    trim_neck env input_image working_dir fs pad_mm =
      { res := Except.error { msg := "Error running command: " ++ joinCmd (trimCmd working_dir) },
        fs := fs_afterTrim env input_image working_dir fs,
        events := [Event.runCmd (reorientCmd input_image working_dir),
          Event.runCmd (trimCmd working_dir),
          Event.print ("Error running command: " ++ joinCmd (trimCmd working_dir)),
          Event.stackTrace,
          Event.print ("command stdout:\n" ++ (env.run (trimCmd working_dir)
            (fs_afterReorient env input_image working_dir fs)).1.stdout),
          Event.print ("command stderr:\n" ++ (env.run (trimCmd working_dir)
            (fs_afterReorient env input_image working_dir fs)).1.stderr)] } := by
  simp only [fs_afterReorient] at h2 ⊢
  simp [trim_neck, run_command_rc_eq _ _ _ h1, run_command_rc_ne _ _ _ h2,
        fs_afterTrim, fs_afterReorient]

/-- `trim_neck` when the first two commands succeed and the pad command
fails: all three run, and the `PipelineError` propagates. -/
theorem trim_neck_fail3 (env : Env) (input_image working_dir : String) (fs : FileSys)
    (pad_mm : Nat)
    (h1 : (env.run (reorientCmd input_image working_dir) fs).1.returncode = 0)
    (h2 : (env.run (trimCmd working_dir)
            (fs_afterReorient env input_image working_dir fs)).1.returncode = 0)
    (h3 : (env.run (padCmd working_dir pad_mm)
            (fs_afterTrim env input_image working_dir fs)).1.returncode ≠ 0) :
    trim_neck env input_image working_dir fs pad_mm =
      { res := Except.error { msg := "Error running command: " ++ joinCmd (padCmd working_dir pad_mm) },
        fs := fs_afterPad env input_image working_dir fs pad_mm,
        events := [Event.runCmd (reorientCmd input_image working_dir),
          Event.runCmd (trimCmd working_dir),
          Event.runCmd (padCmd working_dir pad_mm),
          Event.print ("Error running command: " ++ joinCmd (padCmd working_dir pad_mm)),
          Event.stackTrace,
          Event.print ("command stdout:\n" ++ (env.run (padCmd working_dir pad_mm)
            (fs_afterTrim env input_image working_dir fs)).1.stdout),
          Event.print ("command stderr:\n" ++ (env.run (padCmd working_dir pad_mm)
            (fs_afterTrim env input_image working_dir fs)).1.stderr)] } := by
  simp only [fs_afterReorient] at h2
  simp only [fs_afterTrim, fs_afterReorient] at h3 ⊢
  simp [trim_neck, run_command_rc_eq _ _ _ h1, run_command_rc_eq _ _ _ h2,
        run_command_rc_ne _ _ _ h3, fs_afterPad, fs_afterTrim, fs_afterReorient]

/-- When both tool probes exit 0 and the input path exists at the check,
`main` proceeds to the output-directory handling and the pipeline. -/
theorem main_reaches_pipeline (env : Env) (input output tmpdir : String) (fs0 : FileSys)
    (hp1 : (env.run ["c3d", "-h"] fs0).1.returncode = 0)
    (hp2 : (env.run ["trim_neck.sh", "-h"] (env.run ["c3d", "-h"] fs0).2).1.returncode = 0)
    (hin : (fsAfterChecks env tmpdir fs0).pathExists input = true) :
    main env input output tmpdir fs0 = mainPipelinePhase env input output tmpdir fs0 := by
  have e1 := run_command_rc_eq env ["c3d", "-h"] fs0 hp1
  have e2 := run_command_rc_eq env ["trim_neck.sh", "-h"] (env.run ["c3d", "-h"] fs0).2 hp2
  simp only [fsAfterChecks, probeC3d, probeTrimNeck, e1, e2] at hin
  simp [main, mainPipelinePhase, probeC3d, probeTrimNeck, e1, e2, hin,
        fsAfterChecks, fsPrePipeline]

/-- C3: when both tool probes exit 0, the input path exists, and all
three pipeline invocations exit 0, the process exits with status 0 and
the file at the user-specified output path exists and is byte-identical
to the final padded trimmed image inside the scratch directory. -/
theorem success_copies_padded_image (env : Env) (input output tmpdir : String)
    (fs0 : FileSys) (c : String)
    (hp1 : (env.run ["c3d", "-h"] fs0).1.returncode = 0)
    (hp2 : (env.run ["trim_neck.sh", "-h"] (env.run ["c3d", "-h"] fs0).2).1.returncode = 0)
    (hin : (fsAfterChecks env tmpdir fs0).pathExists input = true)
    (hz1 : (env.run (reorientCmd input tmpdir)
             (fsPrePipeline env output tmpdir fs0)).1.returncode = 0)
    (hz2 : (env.run (trimCmd tmpdir)
             (fs_afterReorient env input tmpdir (fsPrePipeline env output tmpdir fs0))).1.returncode = 0)
    (hz3 : (env.run (padCmd tmpdir 10)
             (fs_afterTrim env input tmpdir (fsPrePipeline env output tmpdir fs0))).1.returncode = 0)
    (hfile : (fs_afterPad env input tmpdir (fsPrePipeline env output tmpdir fs0) 10).getFile
               (tmp_image_trim tmpdir) = some c) :
    (main env input output tmpdir fs0).exitCode = 0 ∧
    (main env input output tmpdir fs0).fs.getFile output = some c ∧
    (main env input output tmpdir fs0).fs.getFile output =
      (fs_afterPad env input tmpdir (fsPrePipeline env output tmpdir fs0) 10).getFile
        (tmp_image_trim tmpdir) := by
  rw [main_reaches_pipeline env input output tmpdir fs0 hp1 hp2 hin]
  have ht := trim_neck_all_ok env input tmpdir (fsPrePipeline env output tmpdir fs0) 10 hz1 hz2 hz3
  simp [mainPipelinePhase, ht, hfile, getFile_setFile]

/-- Witness for C3 at a concrete world where every command exits 0 and
writes the working image. -/
theorem success_copies_padded_image_witness :
    ((envAllOk.run ["c3d", "-h"] fsWithInput).1.returncode = 0 ∧
     (envAllOk.run ["trim_neck.sh", "-h"]
       (envAllOk.run ["c3d", "-h"] fsWithInput).2).1.returncode = 0 ∧
     (fsAfterChecks envAllOk "/tmp/work" fsWithInput).pathExists "in.nii.gz" = true ∧
     (fs_afterPad envAllOk "in.nii.gz" "/tmp/work"
       (fsPrePipeline envAllOk "out/x.nii.gz" "/tmp/work" fsWithInput) 10).getFile
         (tmp_image_trim "/tmp/work") = some "IMG") ∧
    ((main envAllOk "in.nii.gz" "out/x.nii.gz" "/tmp/work" fsWithInput).exitCode = 0 ∧
     (main envAllOk "in.nii.gz" "out/x.nii.gz" "/tmp/work" fsWithInput).fs.getFile
       "out/x.nii.gz" = some "IMG" ∧
     (main envAllOk "in.nii.gz" "out/x.nii.gz" "/tmp/work" fsWithInput).fs.getFile
       "out/x.nii.gz" =
       (fs_afterPad envAllOk "in.nii.gz" "/tmp/work"
         (fsPrePipeline envAllOk "out/x.nii.gz" "/tmp/work" fsWithInput) 10).getFile
           (tmp_image_trim "/tmp/work")) :=
  ⟨⟨rfl, rfl, by decide, by decide⟩,
   success_copies_padded_image envAllOk "in.nii.gz" "out/x.nii.gz" "/tmp/work" fsWithInput
     "IMG" rfl rfl (by decide) rfl rfl rfl (by decide)⟩

/-- C1 (code evidence): in verbose mode a command exiting with status 1
does NOT raise `PipelineError` — `run_command` returns its result record
normally, because the `raise` statement sits inside the
`if not __verbose__` block.  The claimed behaviour (always raising on a
non-zero exit, for every value of the verbose flag) fails here, even
though the command line, both streams and a stack trace are printed. -/
theorem run_command_verbose_failure_no_raise :
    (run_command true envRC1 ["c3d", "-h"] fsEmpty).res =
      Except.ok { cmd_str := "c3d -h", stderr := "err", stdout := "out" } ∧
    Event.stackTrace ∈ (run_command true envRC1 ["c3d", "-h"] fsEmpty).events ∧
    Event.print "Error running command: c3d -h" ∈
      (run_command true envRC1 ["c3d", "-h"] fsEmpty).events ∧
    isErr (run_command false envRC1 ["c3d", "-h"] fsEmpty).res = true := by
  refine ⟨rfl, ?_, ?_, rfl⟩ <;> decide

/-- Membership in a conditional singleton list. -/
theorem mem_ite_singleton {α : Type} {P : Prop} [Decidable P] {a x : α}
    (h : a ∈ (if P then [x] else [])) : a = x ∧ P := by
  split at h
  · simp at h; exact ⟨h, by assumption⟩
  · simp at h

/-- The path `trim_neck` returns on success is always the trimmed-image
path in the working directory. -/
theorem trim_neck_ok_val (env : Env) (input_image working_dir : String) (fs : FileSys)
    (pad_mm : Nat) (v : String)
    (h : (trim_neck env input_image working_dir fs pad_mm).res = Except.ok v) :
    v = tmp_image_trim working_dir := by
  unfold trim_neck at h
  rcases h1 : (run_command __verbose__ env (reorientCmd input_image working_dir) fs).res
    with e1 | r1 <;> simp only [h1] at h
  · simp at h
  · rcases h2 : (run_command __verbose__ env (trimCmd working_dir)
        (run_command __verbose__ env (reorientCmd input_image working_dir) fs).fs).res
      with e2 | r2 <;> simp only [h2] at h
    · simp at h
    · rcases h3 : (run_command __verbose__ env (padCmd working_dir pad_mm)
          (run_command __verbose__ env (trimCmd working_dir)
            (run_command __verbose__ env (reorientCmd input_image working_dir) fs).fs).fs).res
        with e3 | r3 <;> simp only [h3] at h
      · simp at h
      · simp at h; exact h.symm

/-- A copy event in the pipeline phase only arises from the final
successful copy: the run exits 0, the destination is the user-specified
output path, and the source is the trimmed image in the scratch
directory. -/
theorem mainPipelinePhase_copy_mem (env : Env) (input output tmpdir : String)
    (fs0 : FileSys) (s t : String)
    (h : Event.copy s t ∈ (mainPipelinePhase env input output tmpdir fs0).events) :
    (mainPipelinePhase env input output tmpdir fs0).exitCode = 0 ∧
      t = output ∧ s = tmp_image_trim tmpdir := by
  have console : ∀ e ∈ (trim_neck env input tmpdir (fsPrePipeline env output tmpdir fs0) 10).events,
      consoleOrRun e = true :=
    fun e he => trim_neck_events_console env input tmpdir _ 10 e he
  rcases ht : (trim_neck env input tmpdir (fsPrePipeline env output tmpdir fs0) 10).res
    with e | v
  · simp [mainPipelinePhase, ht] at h
    have := console _ h; simp [consoleOrRun] at this
  · rcases hg : (trim_neck env input tmpdir (fsPrePipeline env output tmpdir fs0) 10).fs.getFile v
      with _ | c
    · simp [mainPipelinePhase, ht, hg] at h
      have := console _ h; simp [consoleOrRun] at this
    · simp [mainPipelinePhase, ht, hg] at h
      rcases h with h | h
      · have := console _ h; simp [consoleOrRun] at this
      · refine ⟨by simp [mainPipelinePhase, ht, hg], h.2, ?_⟩
        rw [h.1]; exact trim_neck_ok_val env input tmpdir _ 10 v ht

/-- A makedirs event in the pipeline phase only arises from the guarded
output-directory creation: its argument is the output path's directory
component, which was non-empty and did not exist at the check. -/
theorem mainPipelinePhase_makedirs_mem (env : Env) (input output tmpdir : String)
    (fs0 : FileSys) (d : String)
    (h : Event.makedirs d ∈ (mainPipelinePhase env input output tmpdir fs0).events) :
    d = dirname output ∧ (dirname output).length ≠ 0 ∧
      (fsAfterChecks env tmpdir fs0).pathExists (dirname output) = false := by
  have console : ∀ e ∈ (trim_neck env input tmpdir (fsPrePipeline env output tmpdir fs0) 10).events,
      consoleOrRun e = true :=
    fun e he => trim_neck_events_console env input tmpdir _ 10 e he
  rcases ht : (trim_neck env input tmpdir (fsPrePipeline env output tmpdir fs0) 10).res
    with e | v
  · simp [mainPipelinePhase, ht] at h
    rcases h with h | h
    · exact ⟨h.2, h.1.1, h.1.2⟩
    · have := console _ h; simp [consoleOrRun] at this
  · rcases hg : (trim_neck env input tmpdir (fsPrePipeline env output tmpdir fs0) 10).fs.getFile v
      with _ | c
    · simp [mainPipelinePhase, ht, hg] at h
      rcases h with h | h
      · exact ⟨h.2, h.1.1, h.1.2⟩
      · have := console _ h; simp [consoleOrRun] at this
    · simp [mainPipelinePhase, ht, hg] at h
      rcases h with h | h
      · exact ⟨h.2, h.1.1, h.1.2⟩
      · have := console _ h; simp [consoleOrRun] at this

/-- A copy event in any `main` run only arises from the final successful
copy to the user-specified output path. -/
theorem main_copy_mem (env : Env) (input output tmpdir : String) (fs0 : FileSys)
    (s t : String)
    (h : Event.copy s t ∈ (main env input output tmpdir fs0).events) :
    (main env input output tmpdir fs0).exitCode = 0 ∧
      t = output ∧ s = tmp_image_trim tmpdir := by
  by_cases hp1 : (env.run ["c3d", "-h"] fs0).1.returncode = 0
  · by_cases hp2 : (env.run ["trim_neck.sh", "-h"] (env.run ["c3d", "-h"] fs0).2).1.returncode = 0
    · by_cases hin : (fsAfterChecks env tmpdir fs0).pathExists input = true
      · rw [main_reaches_pipeline env input output tmpdir fs0 hp1 hp2 hin] at h ⊢
        exact mainPipelinePhase_copy_mem env input output tmpdir fs0 s t h
      · have e1 := run_command_rc_eq env ["c3d", "-h"] fs0 hp1
        have e2 := run_command_rc_eq env ["trim_neck.sh", "-h"] (env.run ["c3d", "-h"] fs0).2 hp2
        simp only [fsAfterChecks, probeC3d, probeTrimNeck, e1, e2] at hin
        simp [main, probeC3d, probeTrimNeck, e1, e2, hin] at h
    · have e1 := run_command_rc_eq env ["c3d", "-h"] fs0 hp1
      have e2 := run_command_rc_ne env ["trim_neck.sh", "-h"] (env.run ["c3d", "-h"] fs0).2 hp2
      simp [main, probeC3d, probeTrimNeck, e1, e2] at h
  · have e1 := run_command_rc_ne env ["c3d", "-h"] fs0 hp1
    simp [main, probeC3d, probeTrimNeck, e1] at h

/-- A makedirs event in any `main` run only arises from the guarded
output-directory creation. -/
theorem main_makedirs_mem (env : Env) (input output tmpdir : String) (fs0 : FileSys)
    (d : String)
    (h : Event.makedirs d ∈ (main env input output tmpdir fs0).events) :
    d = dirname output ∧ (dirname output).length ≠ 0 ∧
      (fsAfterChecks env tmpdir fs0).pathExists (dirname output) = false := by
  by_cases hp1 : (env.run ["c3d", "-h"] fs0).1.returncode = 0
  · by_cases hp2 : (env.run ["trim_neck.sh", "-h"] (env.run ["c3d", "-h"] fs0).2).1.returncode = 0
    · by_cases hin : (fsAfterChecks env tmpdir fs0).pathExists input = true
      · rw [main_reaches_pipeline env input output tmpdir fs0 hp1 hp2 hin] at h
        exact mainPipelinePhase_makedirs_mem env input output tmpdir fs0 d h
      · have e1 := run_command_rc_eq env ["c3d", "-h"] fs0 hp1
        have e2 := run_command_rc_eq env ["trim_neck.sh", "-h"] (env.run ["c3d", "-h"] fs0).2 hp2
        simp only [fsAfterChecks, probeC3d, probeTrimNeck, e1, e2] at hin
        simp [main, probeC3d, probeTrimNeck, e1, e2, hin] at h
    · have e1 := run_command_rc_eq env ["c3d", "-h"] fs0 hp1
      have e2 := run_command_rc_ne env ["trim_neck.sh", "-h"] (env.run ["c3d", "-h"] fs0).2 hp2
      simp [main, probeC3d, probeTrimNeck, e1, e2] at h
  · have e1 := run_command_rc_ne env ["c3d", "-h"] fs0 hp1
    simp [main, probeC3d, probeTrimNeck, e1] at h

/-- When the pipeline raises, `main` terminates with exit status 1 (the
exception is uncaught). -/
theorem main_err_exit (env : Env) (input output tmpdir : String) (fs0 : FileSys)
    (hfail : isErr (trim_neck env input tmpdir (fsPrePipeline env output tmpdir fs0) 10).res
      = true) :
    (main env input output tmpdir fs0).exitCode = 1 := by
  by_cases hp1 : (env.run ["c3d", "-h"] fs0).1.returncode = 0
  · by_cases hp2 : (env.run ["trim_neck.sh", "-h"] (env.run ["c3d", "-h"] fs0).2).1.returncode = 0
    · by_cases hin : (fsAfterChecks env tmpdir fs0).pathExists input = true
      · rw [main_reaches_pipeline env input output tmpdir fs0 hp1 hp2 hin]
        rcases ht : (trim_neck env input tmpdir (fsPrePipeline env output tmpdir fs0) 10).res
          with e | v
        · simp [mainPipelinePhase, ht]
        · rw [ht] at hfail; simp [isErr] at hfail
      · have e1 := run_command_rc_eq env ["c3d", "-h"] fs0 hp1
        have e2 := run_command_rc_eq env ["trim_neck.sh", "-h"] (env.run ["c3d", "-h"] fs0).2 hp2
        simp only [fsAfterChecks, probeC3d, probeTrimNeck, e1, e2] at hin
        simp [main, probeC3d, probeTrimNeck, e1, e2, hin]
    · have e1 := run_command_rc_eq env ["c3d", "-h"] fs0 hp1
      have e2 := run_command_rc_ne env ["trim_neck.sh", "-h"] (env.run ["c3d", "-h"] fs0).2 hp2
      simp [main, probeC3d, probeTrimNeck, e1, e2]
  · have e1 := run_command_rc_ne env ["c3d", "-h"] fs0 hp1
    simp [main, probeC3d, probeTrimNeck, e1]

/-- C2: if any one of the three pipeline invocations exits non-zero, no
step after the failure point executes (the commands launched are exactly
the pipeline's first k+1, the failing one last), no file copy to the
user-specified output path occurs, and the process terminates with a
non-zero status. -/
theorem pipeline_failure_aborts (env : Env) (input output tmpdir : String) (fs0 : FileSys)
    (hfail : isErr (trim_neck env input tmpdir (fsPrePipeline env output tmpdir fs0) 10).res
      = true) :
    (main env input output tmpdir fs0).exitCode ≠ 0 ∧
    (∀ s t, Event.copy s t ∉ (main env input output tmpdir fs0).events) ∧
    (∃ k : Nat, k < 3 ∧
      cmdsOf (trim_neck env input tmpdir (fsPrePipeline env output tmpdir fs0) 10).events =
        (pipelineCmds input tmpdir 10).take (k + 1)) := by
  have hexit := main_err_exit env input output tmpdir fs0 hfail
  refine ⟨by rw [hexit]; norm_num, ?_, ?_⟩
  · intro s t hmem
    have h0 := (main_copy_mem env input output tmpdir fs0 s t hmem).1
    rw [hexit] at h0
    exact absurd h0 (by norm_num)
  · by_cases h1 : (env.run (reorientCmd input tmpdir)
        (fsPrePipeline env output tmpdir fs0)).1.returncode = 0
    · by_cases h2 : (env.run (trimCmd tmpdir)
          (fs_afterReorient env input tmpdir (fsPrePipeline env output tmpdir fs0))).1.returncode = 0
      · by_cases h3 : (env.run (padCmd tmpdir 10)
            (fs_afterTrim env input tmpdir (fsPrePipeline env output tmpdir fs0))).1.returncode = 0
        · exfalso
          rw [trim_neck_all_ok env input tmpdir (fsPrePipeline env output tmpdir fs0) 10
            h1 h2 h3] at hfail
          simp [isErr] at hfail
        · refine ⟨2, by norm_num, ?_⟩
          rw [trim_neck_fail3 env input tmpdir (fsPrePipeline env output tmpdir fs0) 10 h1 h2 h3]
          simp [cmdsOf, pipelineCmds, List.take]
      · refine ⟨1, by norm_num, ?_⟩
        rw [trim_neck_fail2 env input tmpdir (fsPrePipeline env output tmpdir fs0) 10 h1 h2]
        simp [cmdsOf, pipelineCmds, List.take]
    · refine ⟨0, by norm_num, ?_⟩
      rw [trim_neck_fail1 env input tmpdir (fsPrePipeline env output tmpdir fs0) 10 h1]
      simp [cmdsOf, pipelineCmds, List.take]

/-- Witness for C2 at a concrete world where the probes succeed but the
neck-trim pipeline step exits 1. -/
theorem pipeline_failure_aborts_witness :
    isErr (trim_neck envTrimFails "in.nii.gz" "/tmp/work"
      (fsPrePipeline envTrimFails "out/x.nii.gz" "/tmp/work" fsWithInput) 10).res = true ∧
    ((main envTrimFails "in.nii.gz" "out/x.nii.gz" "/tmp/work" fsWithInput).exitCode ≠ 0 ∧
     (∀ s t, Event.copy s t ∉
       (main envTrimFails "in.nii.gz" "out/x.nii.gz" "/tmp/work" fsWithInput).events) ∧
     (∃ k : Nat, k < 3 ∧
       cmdsOf (trim_neck envTrimFails "in.nii.gz" "/tmp/work"
         (fsPrePipeline envTrimFails "out/x.nii.gz" "/tmp/work" fsWithInput) 10).events =
         (pipelineCmds "in.nii.gz" "/tmp/work" 10).take (k + 1))) :=
  ⟨by decide,
   pipeline_failure_aborts envTrimFails "in.nii.gz" "out/x.nii.gz" "/tmp/work" fsWithInput
     (by decide)⟩

/-- C4: if either tool probe fails or the input path does not exist, the
process exits with status 1 after printing a console message, no
pipeline step executes (the commands launched are at most the two
probes), and the output path is neither created nor modified (no
directory creation and no file copy happen). -/
theorem precondition_failure_exits_one (env : Env) (input output tmpdir : String)
    (fs0 : FileSys)
    (hpre : (env.run ["c3d", "-h"] fs0).1.returncode ≠ 0 ∨
            ((env.run ["c3d", "-h"] fs0).1.returncode = 0 ∧
             (env.run ["trim_neck.sh", "-h"] (env.run ["c3d", "-h"] fs0).2).1.returncode ≠ 0) ∨
            ((env.run ["c3d", "-h"] fs0).1.returncode = 0 ∧
             (env.run ["trim_neck.sh", "-h"] (env.run ["c3d", "-h"] fs0).2).1.returncode = 0 ∧
             (fsAfterChecks env tmpdir fs0).pathExists input = false)) :
    (main env input output tmpdir fs0).exitCode = 1 ∧
    (∃ m, Event.print m ∈ (main env input output tmpdir fs0).events) ∧
    (cmdsOf (main env input output tmpdir fs0).events = [["c3d", "-h"]] ∨
     cmdsOf (main env input output tmpdir fs0).events =
       [["c3d", "-h"], ["trim_neck.sh", "-h"]]) ∧
    (∀ s t, Event.copy s t ∉ (main env input output tmpdir fs0).events) ∧
    (∀ d, Event.makedirs d ∉ (main env input output tmpdir fs0).events) := by
  rcases hpre with h1 | ⟨h1, h2⟩ | ⟨h1, h2, h3⟩
  · have e1 := run_command_rc_ne env ["c3d", "-h"] fs0 h1
    exact ⟨by simp [main, probeC3d, probeTrimNeck, e1],
           ⟨"Could not run c3d, check PATH", by simp [main, probeC3d, probeTrimNeck, e1]⟩,
           Or.inl (by simp [main, probeC3d, probeTrimNeck, e1, cmdsOf]),
           fun s t => by simp [main, probeC3d, probeTrimNeck, e1],
           fun d => by simp [main, probeC3d, probeTrimNeck, e1]⟩
  · have e1 := run_command_rc_eq env ["c3d", "-h"] fs0 h1
    have e2 := run_command_rc_ne env ["trim_neck.sh", "-h"] (env.run ["c3d", "-h"] fs0).2 h2
    exact ⟨by simp [main, probeC3d, probeTrimNeck, e1, e2],
           ⟨"Could not run trim_neck.sh, check PATH",
            by simp [main, probeC3d, probeTrimNeck, e1, e2]⟩,
           Or.inr (by simp [main, probeC3d, probeTrimNeck, e1, e2, cmdsOf]),
           fun s t => by simp [main, probeC3d, probeTrimNeck, e1, e2],
           fun d => by simp [main, probeC3d, probeTrimNeck, e1, e2]⟩
  · have e1 := run_command_rc_eq env ["c3d", "-h"] fs0 h1
    have e2 := run_command_rc_eq env ["trim_neck.sh", "-h"] (env.run ["c3d", "-h"] fs0).2 h2
    simp only [fsAfterChecks, probeC3d, probeTrimNeck, e1, e2] at h3
    exact ⟨by simp [main, probeC3d, probeTrimNeck, e1, e2, h3],
           ⟨"Input image " ++ input ++ " does not exist",
            by simp [main, probeC3d, probeTrimNeck, e1, e2, h3]⟩,
           Or.inr (by simp [main, probeC3d, probeTrimNeck, e1, e2, h3, cmdsOf]),
           fun s t => by simp [main, probeC3d, probeTrimNeck, e1, e2, h3],
           fun d => by simp [main, probeC3d, probeTrimNeck, e1, e2, h3]⟩

/-- Witness for C4 at a concrete world whose first probe fails. -/
theorem precondition_failure_exits_one_witness :
    ((envAllFail.run ["c3d", "-h"] fsWithInput).1.returncode ≠ 0 ∨
     ((envAllFail.run ["c3d", "-h"] fsWithInput).1.returncode = 0 ∧
      (envAllFail.run ["trim_neck.sh", "-h"]
        (envAllFail.run ["c3d", "-h"] fsWithInput).2).1.returncode ≠ 0) ∨
     ((envAllFail.run ["c3d", "-h"] fsWithInput).1.returncode = 0 ∧
      (envAllFail.run ["trim_neck.sh", "-h"]
        (envAllFail.run ["c3d", "-h"] fsWithInput).2).1.returncode = 0 ∧
      (fsAfterChecks envAllFail "/tmp/work" fsWithInput).pathExists "in.nii.gz" = false)) ∧
    ((main envAllFail "in.nii.gz" "out/x.nii.gz" "/tmp/work" fsWithInput).exitCode = 1 ∧
     (∃ m, Event.print m ∈
       (main envAllFail "in.nii.gz" "out/x.nii.gz" "/tmp/work" fsWithInput).events) ∧
     (cmdsOf (main envAllFail "in.nii.gz" "out/x.nii.gz" "/tmp/work" fsWithInput).events =
        [["c3d", "-h"]] ∨
      cmdsOf (main envAllFail "in.nii.gz" "out/x.nii.gz" "/tmp/work" fsWithInput).events =
        [["c3d", "-h"], ["trim_neck.sh", "-h"]]) ∧
     (∀ s t, Event.copy s t ∉
       (main envAllFail "in.nii.gz" "out/x.nii.gz" "/tmp/work" fsWithInput).events) ∧
     (∀ d, Event.makedirs d ∉
       (main envAllFail "in.nii.gz" "out/x.nii.gz" "/tmp/work" fsWithInput).events)) :=
  ⟨Or.inl (by decide),
   precondition_failure_exits_one envAllFail "in.nii.gz" "out/x.nii.gz" "/tmp/work"
     fsWithInput (Or.inl (by decide))⟩

/-- C9: the global verbose flag is False and stays so; under it
`run_command` never echoes the command or its streams on a zero exit
(its only event is the subprocess launch itself), and on a non-zero exit
the raising branch is always taken. -/
theorem verbose_stays_false :
    __verbose__ = false ∧
    (∀ (env : Env) (cmd : List String) (fs : FileSys),
      (env.run cmd fs).1.returncode = 0 →
      (run_command __verbose__ env cmd fs).events = [Event.runCmd cmd] ∧
      (run_command __verbose__ env cmd fs).res = Except.ok
        { cmd_str := joinCmd cmd, stderr := (env.run cmd fs).1.stderr,
          stdout := (env.run cmd fs).1.stdout }) ∧
    (∀ (env : Env) (cmd : List String) (fs : FileSys),
      (env.run cmd fs).1.returncode ≠ 0 →
      (run_command __verbose__ env cmd fs).res = Except.error
        { msg := "Error running command: " ++ joinCmd cmd }) := by
  refine ⟨rfl, ?_, ?_⟩
  · intro env cmd fs h
    rw [run_command_rc_eq env cmd fs h]
    exact ⟨rfl, rfl⟩
  · intro env cmd fs h
    rw [run_command_rc_ne env cmd fs h]

/-- Witness for C9 at concrete worlds with exit status 0 and 1. -/
theorem verbose_stays_false_witness :
    ((envAllOk.run ["c3d", "-h"] fsEmpty).1.returncode = 0 ∧
     (run_command __verbose__ envAllOk ["c3d", "-h"] fsEmpty).events =
       [Event.runCmd ["c3d", "-h"]]) ∧
    ((envAllFail.run ["c3d", "-h"] fsEmpty).1.returncode ≠ 0 ∧
     (run_command __verbose__ envAllFail ["c3d", "-h"] fsEmpty).res = Except.error
       { msg := "Error running command: " ++ joinCmd ["c3d", "-h"] }) :=
  ⟨⟨rfl, (verbose_stays_false.2.1 envAllOk ["c3d", "-h"] fsEmpty rfl).1⟩,
   ⟨by decide, verbose_stays_false.2.2 envAllFail ["c3d", "-h"] fsEmpty (by decide)⟩⟩

/-- C5: the pipeline is a fixed linear three-step sequence whose steps
chain output path to input path: the reorient step writes the fixed
reoriented filename in the working directory, the trim step reads that
reoriented image and writes the trimmed image, the pad step reads the
trimmed image and overwrites the same path in place, and `trim_neck`
returns that path. -/
theorem pipeline_chains_paths (env : Env) (input_image working_dir : String) (fs : FileSys)
    (pad_mm : Nat)
    (hok : isErr (trim_neck env input_image working_dir fs pad_mm).res = false) :
    cmdsOf (trim_neck env input_image working_dir fs pad_mm).events =
      [reorientCmd input_image working_dir, trimCmd working_dir, padCmd working_dir pad_mm] ∧
    (trim_neck env input_image working_dir fs pad_mm).res =
      Except.ok (tmp_image_trim working_dir) ∧
    reorientCmd input_image working_dir =
      ["c3d", input_image, "-swapdim", "LPI", "-o", reoriented_image working_dir] ∧
    trimCmd working_dir =
      ["trim_neck.sh", "-c", "20", "-w", working_dir, reoriented_image working_dir,
       tmp_image_trim working_dir] ∧
    padCmd working_dir pad_mm =
      ["c3d", tmp_image_trim working_dir, "-pad", padArg pad_mm, padArg pad_mm, "0", "-o",
       tmp_image_trim working_dir] := by
  by_cases h1 : (env.run (reorientCmd input_image working_dir) fs).1.returncode = 0
  · by_cases h2 : (env.run (trimCmd working_dir)
        (fs_afterReorient env input_image working_dir fs)).1.returncode = 0
    · by_cases h3 : (env.run (padCmd working_dir pad_mm)
          (fs_afterTrim env input_image working_dir fs)).1.returncode = 0
      · rw [trim_neck_all_ok env input_image working_dir fs pad_mm h1 h2 h3]
        exact ⟨by simp [cmdsOf], rfl, rfl, rfl, rfl⟩
      · rw [trim_neck_fail3 env input_image working_dir fs pad_mm h1 h2 h3] at hok
        simp [isErr] at hok
    · rw [trim_neck_fail2 env input_image working_dir fs pad_mm h1 h2] at hok
      simp [isErr] at hok
  · rw [trim_neck_fail1 env input_image working_dir fs pad_mm h1] at hok
    simp [isErr] at hok

/-- Witness for C5 at a concrete world where every command exits 0. -/
theorem pipeline_chains_paths_witness :
    isErr (trim_neck envAllOk "in.nii.gz" "/tmp/work" fsEmpty 10).res = false ∧
    (cmdsOf (trim_neck envAllOk "in.nii.gz" "/tmp/work" fsEmpty 10).events =
      [reorientCmd "in.nii.gz" "/tmp/work", trimCmd "/tmp/work", padCmd "/tmp/work" 10] ∧
     (trim_neck envAllOk "in.nii.gz" "/tmp/work" fsEmpty 10).res =
       Except.ok (tmp_image_trim "/tmp/work") ∧
     reorientCmd "in.nii.gz" "/tmp/work" =
       ["c3d", "in.nii.gz", "-swapdim", "LPI", "-o", reoriented_image "/tmp/work"] ∧
     trimCmd "/tmp/work" =
       ["trim_neck.sh", "-c", "20", "-w", "/tmp/work", reoriented_image "/tmp/work",
        tmp_image_trim "/tmp/work"] ∧
     padCmd "/tmp/work" 10 =
       ["c3d", tmp_image_trim "/tmp/work", "-pad", padArg 10, padArg 10, "0", "-o",
        tmp_image_trim "/tmp/work"]) :=
  ⟨by decide, pipeline_chains_paths envAllOk "in.nii.gz" "/tmp/work" fsEmpty 10 (by decide)⟩

/-- C6: the pad invocation passes the string `"PxPxPmm"` as BOTH the
lower and the upper bound and `"0"` as the background fill, for every
padding amount `P`; the entry point runs the pipeline with `P = 10`, and
a run that reaches the pad step launches the pad command with
`"10x10x10mm"` in both bound positions. -/
theorem pad_both_bounds_ten_mm (env : Env) (input output tmpdir : String) (fs0 : FileSys)
    (hp1 : (env.run ["c3d", "-h"] fs0).1.returncode = 0)
    (hp2 : (env.run ["trim_neck.sh", "-h"] (env.run ["c3d", "-h"] fs0).2).1.returncode = 0)
    (hin : (fsAfterChecks env tmpdir fs0).pathExists input = true)
    (hz1 : (env.run (reorientCmd input tmpdir)
             (fsPrePipeline env output tmpdir fs0)).1.returncode = 0)
    (hz2 : (env.run (trimCmd tmpdir)
             (fs_afterReorient env input tmpdir (fsPrePipeline env output tmpdir fs0))).1.returncode = 0) :
    Event.runCmd (padCmd tmpdir 10) ∈ (main env input output tmpdir fs0).events ∧
    padArg 10 = "10x10x10mm" ∧
    (∀ (P : Nat) (wd : String),
      padCmd wd P = ["c3d", tmp_image_trim wd, "-pad", padArg P, padArg P, "0", "-o",
        tmp_image_trim wd] ∧
      padArg P = toString P ++ "x" ++ toString P ++ "x" ++ toString P ++ "mm") := by
  refine ⟨?_, by decide, fun P wd => ⟨rfl, rfl⟩⟩
  rw [main_reaches_pipeline env input output tmpdir fs0 hp1 hp2 hin]
  by_cases h3 : (env.run (padCmd tmpdir 10)
      (fs_afterTrim env input tmpdir (fsPrePipeline env output tmpdir fs0))).1.returncode = 0
  · have ht := trim_neck_all_ok env input tmpdir (fsPrePipeline env output tmpdir fs0) 10
      hz1 hz2 h3
    rcases hg : (fs_afterPad env input tmpdir (fsPrePipeline env output tmpdir fs0) 10).getFile
        (tmp_image_trim tmpdir) with _ | c <;>
      simp [mainPipelinePhase, ht, hg]
  · have ht := trim_neck_fail3 env input tmpdir (fsPrePipeline env output tmpdir fs0) 10
      hz1 hz2 h3
    simp [mainPipelinePhase, ht]

/-- Witness for C6 at a concrete world where every command exits 0. -/
theorem pad_both_bounds_ten_mm_witness :
    ((envAllOk.run ["c3d", "-h"] fsWithInput).1.returncode = 0 ∧
     (fsAfterChecks envAllOk "/tmp/work" fsWithInput).pathExists "in.nii.gz" = true) ∧
    (Event.runCmd (padCmd "/tmp/work" 10) ∈
      (main envAllOk "in.nii.gz" "out/x.nii.gz" "/tmp/work" fsWithInput).events ∧
     padArg 10 = "10x10x10mm" ∧
     (∀ (P : Nat) (wd : String),
       padCmd wd P = ["c3d", tmp_image_trim wd, "-pad", padArg P, padArg P, "0", "-o",
         tmp_image_trim wd] ∧
       padArg P = toString P ++ "x" ++ toString P ++ "x" ++ toString P ++ "mm")) :=
  ⟨⟨rfl, by decide⟩,
   pad_both_bounds_ten_mm envAllOk "in.nii.gz" "out/x.nii.gz" "/tmp/work" fsWithInput
     rfl rfl (by decide) rfl rfl⟩

/-- C7: once the reorient step has succeeded, the external neck-trimming
tool is launched exactly once — it is the only launched command whose
program is `trim_neck.sh` — with the fixed `-c 20` threshold, the
working directory as the `-w` scratch space, the reoriented image as
input, and the trimmed image in the working directory as output. -/
theorem trim_tool_invoked_once (env : Env) (input_image working_dir : String) (fs : FileSys)
    (pad_mm : Nat)
    (h1 : (env.run (reorientCmd input_image working_dir) fs).1.returncode = 0) :
    (cmdsOf (trim_neck env input_image working_dir fs pad_mm).events).countP
      (fun c => c.headD "" == "trim_neck.sh") = 1 ∧
    Event.runCmd ["trim_neck.sh", "-c", "20", "-w", working_dir,
      reoriented_image working_dir, tmp_image_trim working_dir] ∈
      (trim_neck env input_image working_dir fs pad_mm).events := by
  by_cases h2 : (env.run (trimCmd working_dir)
      (fs_afterReorient env input_image working_dir fs)).1.returncode = 0
  · by_cases h3 : (env.run (padCmd working_dir pad_mm)
        (fs_afterTrim env input_image working_dir fs)).1.returncode = 0
    · rw [trim_neck_all_ok env input_image working_dir fs pad_mm h1 h2 h3]
      exact ⟨rfl, by simp [trimCmd]⟩
    · rw [trim_neck_fail3 env input_image working_dir fs pad_mm h1 h2 h3]
      exact ⟨rfl, by simp [trimCmd]⟩
  · rw [trim_neck_fail2 env input_image working_dir fs pad_mm h1 h2]
    exact ⟨rfl, by simp [trimCmd]⟩

/-- Witness for C7 at a concrete world where every command exits 0. -/
theorem trim_tool_invoked_once_witness :
    (envAllOk.run (reorientCmd "in.nii.gz" "/tmp/work") fsEmpty).1.returncode = 0 ∧
    ((cmdsOf (trim_neck envAllOk "in.nii.gz" "/tmp/work" fsEmpty 10).events).countP
       (fun c => c.headD "" == "trim_neck.sh") = 1 ∧
     Event.runCmd ["trim_neck.sh", "-c", "20", "-w", "/tmp/work",
       reoriented_image "/tmp/work", tmp_image_trim "/tmp/work"] ∈
       (trim_neck envAllOk "in.nii.gz" "/tmp/work" fsEmpty 10).events) :=
  ⟨rfl, trim_tool_invoked_once envAllOk "in.nii.gz" "/tmp/work" fsEmpty 10 rfl⟩

/-- C8: in every run that reaches the pipeline, if the output path's
directory component is non-empty and does not yet exist on disk, it is
created automatically — a makedirs event for it occurs before any copy
event — and it exists on the file system handed to the pipeline. -/
theorem output_dir_created_before_copy (env : Env) (input output tmpdir : String)
    (fs0 : FileSys)
    (hp1 : (env.run ["c3d", "-h"] fs0).1.returncode = 0)
    (hp2 : (env.run ["trim_neck.sh", "-h"] (env.run ["c3d", "-h"] fs0).2).1.returncode = 0)
    (hin : (fsAfterChecks env tmpdir fs0).pathExists input = true)
    (hdir : (dirname output).length ≠ 0)
    (hnex : (fsAfterChecks env tmpdir fs0).pathExists (dirname output) = false) :
    (∃ pre post, (main env input output tmpdir fs0).events =
        pre ++ Event.makedirs (dirname output) :: post ∧
        (∀ s t, Event.copy s t ∉ pre)) ∧
    (fsPrePipeline env output tmpdir fs0).dirExists (dirname output) = true := by
  rw [main_reaches_pipeline env input output tmpdir fs0 hp1 hp2 hin]
  constructor
  · rcases ht : (trim_neck env input tmpdir (fsPrePipeline env output tmpdir fs0) 10).res
      with e | v
    · exact ⟨[Event.runCmd ["c3d", "-h"], Event.runCmd ["trim_neck.sh", "-h"],
          Event.mkTempDir tmpdir],
        (trim_neck env input tmpdir (fsPrePipeline env output tmpdir fs0) 10).events,
        by simp [mainPipelinePhase, ht, hdir, hnex], by simp⟩
    · rcases hg : (trim_neck env input tmpdir (fsPrePipeline env output tmpdir fs0) 10).fs.getFile v
        with _ | c
      · exact ⟨[Event.runCmd ["c3d", "-h"], Event.runCmd ["trim_neck.sh", "-h"],
            Event.mkTempDir tmpdir],
          (trim_neck env input tmpdir (fsPrePipeline env output tmpdir fs0) 10).events,
          by simp [mainPipelinePhase, ht, hg, hdir, hnex], by simp⟩
      · exact ⟨[Event.runCmd ["c3d", "-h"], Event.runCmd ["trim_neck.sh", "-h"],
            Event.mkTempDir tmpdir],
          (trim_neck env input tmpdir (fsPrePipeline env output tmpdir fs0) 10).events ++
            [Event.copy v output],
          by simp [mainPipelinePhase, ht, hg, hdir, hnex], by simp⟩
  · simp [fsPrePipeline, hdir, hnex, FileSys.makedirs, FileSys.dirExists]

/-- Witness for C8 at a concrete world where every command exits 0 and
the output directory `out` does not yet exist. -/
theorem output_dir_created_before_copy_witness :
    ((dirname "out/x.nii.gz").length ≠ 0 ∧
     (fsAfterChecks envAllOk "/tmp/work" fsWithInput).pathExists (dirname "out/x.nii.gz")
       = false) ∧
    ((∃ pre post,
        (main envAllOk "in.nii.gz" "out/x.nii.gz" "/tmp/work" fsWithInput).events =
          pre ++ Event.makedirs (dirname "out/x.nii.gz") :: post ∧
        (∀ s t, Event.copy s t ∉ pre)) ∧
     (fsPrePipeline envAllOk "out/x.nii.gz" "/tmp/work" fsWithInput).dirExists
       (dirname "out/x.nii.gz") = true) :=
  ⟨⟨by decide, by decide⟩,
   output_dir_created_before_copy envAllOk "in.nii.gz" "out/x.nii.gz" "/tmp/work" fsWithInput
     rfl rfl (by decide) (by decide) (by decide)⟩

/-- C10: when the output path has an empty directory component (a bare
filename), no directory creation is attempted at all — no run ever emits
a makedirs event — and any copy performed targets the bare output path
directly. -/
theorem bare_output_no_makedirs (env : Env) (input output tmpdir : String) (fs0 : FileSys)
    (hbare : dirname output = "") :
    (∀ d, Event.makedirs d ∉ (main env input output tmpdir fs0).events) ∧
    (∀ s t, Event.copy s t ∈ (main env input output tmpdir fs0).events → t = output) := by
  constructor
  · intro d hd
    have h := main_makedirs_mem env input output tmpdir fs0 d hd
    rw [hbare] at h
    exact absurd rfl h.2.1
  · intro s t hc
    exact (main_copy_mem env input output tmpdir fs0 s t hc).2.1

/-- Witness for C10 at a concrete bare output filename. -/
theorem bare_output_no_makedirs_witness :
    dirname "bare.nii.gz" = "" ∧
    ((∀ d, Event.makedirs d ∉
       (main envAllOk "in.nii.gz" "bare.nii.gz" "/tmp/work" fsWithInput).events) ∧
     (∀ s t, Event.copy s t ∈
       (main envAllOk "in.nii.gz" "bare.nii.gz" "/tmp/work" fsWithInput).events →
       t = "bare.nii.gz")) :=
  ⟨by decide,
   bare_output_no_makedirs envAllOk "in.nii.gz" "bare.nii.gz" "/tmp/work" fsWithInput
     (by decide)⟩

end TrimNeck
